import Mathlib

/-!
Verification of the core data-cleaning / query / summarisation logic of the
COVID-19 tracker script (`covid-19.py`).

The script operates on a pandas DataFrame with columns `location`, `date`,
`total_cases`, `total_deaths`, `new_cases`, `new_deaths`,
`total_vaccinations`.  We embed a DataFrame row as a `Record` and a
DataFrame as a `List Record`.  A numeric cell that is NaN (missing) is
embedded as `none`; a present numeric cell as `some q` with `q : ℚ`.
Dates are embedded as integers (only their ordering and equality matter to
the functions under study).
-/

namespace Covid

/-- One row of the dataset.  `location` and `date` are always present
(the loader parses the `date` column up front); the five numeric metric
columns may be missing (`none` embeds pandas NaN). -/
structure Record where
  location : String
  date : Int
  total_cases : Option ℚ
  total_deaths : Option ℚ
  new_cases : Option ℚ
  new_deaths : Option ℚ
  total_vaccinations : Option ℚ
deriving DecidableEq, Repr

/-- A dataset is an ordered collection of rows. -/
abbrev Dataset := List Record

/-- Embeds `sorted(df['location'].unique())` from `get_available_countries`:
the distinct location strings of the dataset, sorted ascending.
(`unique()` keeps one copy of each value; `sorted` orders them — the
composition is order-insensitive in which copy `unique` keeps, so we use
`List.dedup` followed by an ascending sort.) -/
def get_available_countries (df : Dataset) : List String :=
  ((df.map Record.location).dedup).insertionSort (· ≤ ·)

/-- Embeds the drop step of `clean_data`:
`df.dropna(subset=['total_cases','total_deaths'], how='all')` — a row is
dropped exactly when BOTH crucial cells are NaN. -/
def dropna_crucial (df : Dataset) : Dataset :=
  df.filter (fun r => r.total_cases.isSome || r.total_deaths.isSome)

/-- Embeds `fillna(0)` on one row: every NaN cell becomes the number 0. -/
def fillna0 (r : Record) : Record :=
  { r with
    total_cases := some (r.total_cases.getD 0)
    total_deaths := some (r.total_deaths.getD 0)
    new_cases := some (r.new_cases.getD 0)
    new_deaths := some (r.new_deaths.getD 0)
    total_vaccinations := some (r.total_vaccinations.getD 0) }

/-- Embeds `clean_data`: drop rows where both crucial cells are NaN, then
fill every remaining NaN with 0. -/
def clean_data (df : Dataset) : Dataset :=
  (dropna_crucial df).map fillna0

/-- Embeds `get_country_data`: `df[df['location'] == country].copy()` —
the rows whose location equals `country`, in dataset order. -/
def get_country_data (df : Dataset) (country : String) : Dataset :=
  df.filter (fun r => r.location == country)

/-- Calling `dropna` without `inplace=True` returns a new frame and
leaves its argument untouched: we make that explicit by returning the
result together with the state of the argument frame after the call. -/
def dropna_crucial_st (df : Dataset) : Dataset × Dataset :=
  (dropna_crucial df, df)

/-- Calling `fillna(0)` without `inplace=True`, with the post-call state
of the argument frame made explicit. -/
def fillna0_st (df : Dataset) : Dataset × Dataset :=
  (df.map fillna0, df)

/-- The function `clean_data` with the post-call state of the caller's
frame made explicit: the first component is the returned cleaned frame,
the second is the argument frame after the call. -/
def clean_data_st (df : Dataset) : Dataset × Dataset :=
  let s1 := dropna_crucial_st df
  let s2 := fillna0_st s1.1
  (s2.1, s1.2)

/-- Python `int()` on a number: truncation toward zero. -/
def pyTrunc (q : ℚ) : Int :=
  if 0 ≤ q then ⌊q⌋ else ⌈q⌉

/-- The value printed by a two-decimal fixed-point format such as
Python's x:.2f — the number rounded to two decimal places. -/
def roundTo2 (q : ℚ) : ℚ :=
  (round (q * 100) : Int) / 100

/-- Embeds `latest_data = country_data.iloc[-1]`: the positionally last
row of the slice, or `none` when the slice is empty. -/
def latest_data (country_data : Dataset) : Option Record :=
  country_data.getLast?

/-- The only failure of the summarisation path: the slice holds no row
(`display_country_stats` prints "No data found" and returns). -/
inductive SummarizeError where
  | notFound
deriving DecidableEq, Repr

/-- The statistics `display_country_stats` derives and prints for a
country: the latest row's date, its totals as Python `int`s, the
vaccination total only when its value compares `> 0`, and the case
fatality rate (at two-decimal display precision) only when
`total_cases > 0`. -/
structure Snapshot where
  date : Int
  total_cases : Int
  total_deaths : Int
  total_vaccinations : Option Int
  case_fatality_rate : Option ℚ
deriving DecidableEq, Repr

/-- The statistics `display_country_stats` derives from the selected row
(lines 93–102 of the source): the totals as Python `int`s, the
vaccination total guarded by `> 0`, the fatality rate guarded by
`total_cases > 0`.  (Cell reads use `getD 0`; on cleaned data every cell
is present, and the two `> 0` guards treat a NaN cell the same way
Python does — the comparison is false.) -/
def snapshot_of (r : Record) : Snapshot :=
  let tc := r.total_cases.getD 0
  let td := r.total_deaths.getD 0
  let tv := r.total_vaccinations.getD 0
  { date := r.date
    total_cases := pyTrunc tc
    total_deaths := pyTrunc td
    total_vaccinations := if 0 < tv then some (pyTrunc tv) else none
    case_fatality_rate :=
      if 0 < tc then some (roundTo2 (td / tc * 100)) else none }

/-- Embeds the computation of `display_country_stats`: on an empty slice
it signals not-found; otherwise it takes `iloc[-1]` and derives the
printed statistics from that row. -/
def display_country_stats (country_data : Dataset) :
    Except SummarizeError Snapshot :=
  match latest_data country_data with
  | none => Except.error SummarizeError.notFound
  | some r => Except.ok (snapshot_of r)

/-- `display_country_stats` with the post-call state of the slice made
explicit: the function only reads the slice. -/
def display_country_stats_st (country_data : Dataset) :
    (Except SummarizeError Snapshot) × Dataset :=
  (display_country_stats country_data, country_data)

/-- Modelled from the spec (the code itself takes the positionally last
row): "selects the Record with the latest `date` in the slice … if
multiple Records share the identical latest date, the one occurring last
in slice order wins".  The fold keeps the current best and replaces it
whenever a later row's date is at least as large, so the last row carrying
the maximal date is chosen. -/
def spec_latest_by_date (slice : Dataset) : Option Record :=
  match slice with
  | [] => none
  | r :: rs => some (rs.foldl (fun acc x => if acc.date ≤ x.date then x else acc) r)

/-! ### Concrete rows and datasets used by the witnesses -/

/-- Helper building a row; `new_cases` and `new_deaths` are left missing
(they play no role in the summarisation path). -/
def mkRow (loc : String) (d : Int) (tc td tv : Option ℚ) : Record :=
  { location := loc, date := d, total_cases := tc, total_deaths := td,
    new_cases := none, new_deaths := none, total_vaccinations := tv }

/-- A row with both crucial cells missing: `clean_data` must drop it. -/
def rowBothAbsent : Record := mkRow "A" 0 none none none

/-- A row with `total_cases` present: `clean_data` must keep it. -/
def rowOnePresent : Record := mkRow "B" 1 (some 5) none none

/-- Two-row dataset exercising the drop step of `clean_data`. -/
def exDropD : Dataset := [rowBothAbsent, rowOnePresent]

/-- A row whose `total_deaths` and `total_vaccinations` are missing but
whose `total_cases` is present: it survives cleaning and its gaps are
zero-filled. -/
def rowGap : Record := mkRow "C" 0 (some 5) none none

/-- Two rows distinguished only by location and date. -/
def rowX : Record := mkRow "X" 0 none none none

/-- Second row of the filtering example dataset. -/
def rowY : Record := mkRow "Y" 1 none none none

/-- Dataset for the `get_country_data` witness. -/
def exFilterD : Dataset := [rowX, rowY]

/-! ### Theorems -/

/-- Claim C2: `clean_data` (its `dropna` step) removes exactly the rows of
the input in which both `total_cases` and `total_deaths` are absent: the
kept rows form a sublist of the input, a row of the input survives the
drop step iff at least one of the two cells is present, and the final
output contains no row with both cells absent. -/
theorem clean_data_drops_exactly_both_absent (df : Dataset) :
    (dropna_crucial df).Sublist df ∧
    (∀ r ∈ df, (r ∈ dropna_crucial df ↔
      (r.total_cases.isSome ∨ r.total_deaths.isSome))) ∧
    (∀ r ∈ clean_data df, ¬ (r.total_cases = none ∧ r.total_deaths = none)) := by
  refine ⟨List.filter_sublist df, fun r hr => ?_, fun r hr => ?_⟩
  · simp [dropna_crucial, List.mem_filter, hr]
  · rcases List.mem_map.mp hr with ⟨r0, _, rfl⟩
    simp [fillna0]

/-- Claim C2 witness: on the concrete two-row dataset, the row with one
crucial cell present survives the drop step and the row with both absent
does not. -/
theorem clean_data_drops_exactly_both_absent_witness :
    rowOnePresent ∈ dropna_crucial exDropD ∧
    rowBothAbsent ∉ dropna_crucial exDropD := by
  have h := clean_data_drops_exactly_both_absent exDropD
  constructor
  · exact (h.2.1 rowOnePresent (by simp [exDropD])).mpr
      (by simp [rowOnePresent, mkRow])
  · intro hin
    have h2 := (h.2.1 rowBothAbsent (by simp [exDropD])).mp hin
    simp [rowBothAbsent, mkRow] at h2

/-- Claim C3: every row of `clean_data df` has every attribute present,
and each cell that was absent on the surviving source row has been
replaced with the number 0. -/
theorem clean_data_fills_absent_with_zero (df : Dataset) (r : Record)
    (h : r ∈ clean_data df) :
    r.total_cases.isSome ∧ r.total_deaths.isSome ∧ r.new_cases.isSome ∧
    r.new_deaths.isSome ∧ r.total_vaccinations.isSome ∧
    ∃ r0 ∈ dropna_crucial df, r = fillna0 r0 ∧
      (r0.total_cases = none → r.total_cases = some 0) ∧
      (r0.total_deaths = none → r.total_deaths = some 0) ∧
      (r0.new_cases = none → r.new_cases = some 0) ∧
      (r0.new_deaths = none → r.new_deaths = some 0) ∧
      (r0.total_vaccinations = none → r.total_vaccinations = some 0) := by
  rcases List.mem_map.mp h with ⟨r0, hr0, rfl⟩
  refine ⟨by simp [fillna0], by simp [fillna0], by simp [fillna0],
    by simp [fillna0], by simp [fillna0], r0, hr0, rfl, ?_, ?_, ?_, ?_, ?_⟩ <;>
    (intro hnone; simp [fillna0, hnone])

/-- Claim C3 witness: the cleaned version of the concrete gap row is in
the cleaned singleton dataset with its absent `total_deaths` and
`total_vaccinations` replaced by 0. -/
theorem clean_data_fills_absent_with_zero_witness :
    (fillna0 rowGap).total_deaths = some 0 ∧
    (fillna0 rowGap).total_vaccinations = some 0 ∧
    (fillna0 rowGap).total_cases.isSome := by
  have hmem : fillna0 rowGap ∈ clean_data [rowGap] := by
    simp [clean_data, dropna_crucial, rowGap, mkRow]
  have h := clean_data_fills_absent_with_zero [rowGap] (fillna0 rowGap) hmem
  obtain ⟨htc, -, -, -, -, r0, hr0, heq, himps⟩ := h
  have hr0eq : r0 = rowGap := by
    simpa [dropna_crucial, rowGap, mkRow] using hr0
  subst hr0eq
  exact ⟨himps.2.1 (by simp [rowGap, mkRow]),
    himps.2.2.2.2 (by simp [rowGap, mkRow]), htc⟩

/-- Claim C4: `get_country_data df name` returns exactly the rows of `df`
whose location equals `name` (with multiplicity), as a sublist of `df`
(original relative order preserved), and it returns the empty list — not
an error — when no row matches. -/
theorem get_country_data_spec (df : Dataset) (name : String) :
    (∀ r ∈ get_country_data df name, r.location = name) ∧
    (get_country_data df name).Sublist df ∧
    (∀ r : Record, (get_country_data df name).count r =
      if r.location = name then df.count r else 0) ∧
    ((∀ r ∈ df, r.location ≠ name) → get_country_data df name = []) := by
  refine ⟨fun r hr => ?_, List.filter_sublist df, fun r => ?_, fun hno => ?_⟩
  · have := (List.mem_filter.mp hr).2
    simpa using this
  · by_cases hloc : r.location = name
    · rw [if_pos hloc]
      exact List.count_filter (by simpa using hloc)
    · rw [if_neg hloc]
      refine List.count_eq_zero.mpr fun hmem => ?_
      exact hloc (by simpa using (List.mem_filter.mp hmem).2)
  · simpa [get_country_data, List.filter_eq_nil_iff] using hno

/-- Claim C4 witness: on the concrete two-row dataset, filtering for "X"
keeps exactly the one "X" row and filtering for the absent "Z" returns
the empty list. -/
theorem get_country_data_spec_witness :
    (get_country_data exFilterD "X").count rowX = 1 ∧
    get_country_data exFilterD "Z" = [] := by
  have hX := (get_country_data_spec exFilterD "X").2.2.1 rowX
  have hZ := (get_country_data_spec exFilterD "Z").2.2.2
  constructor
  · rw [hX, if_pos (by simp [rowX, mkRow])]
    decide
  · exact hZ (by decide)

/-- Claim C9: `clean_data` performs no in-place mutation: threading the
state of the caller's frame through the `dropna`/`fillna` calls, the
frame after the call is the frame before it, and the returned value is
the cleaned dataset. -/
theorem clean_data_no_mutation (df : Dataset) :
    (clean_data_st df).2 = df ∧ (clean_data_st df).1 = clean_data df :=
  ⟨rfl, rfl⟩

/-- Claim C10: `get_available_countries` is complete: the location of
every row of the dataset appears in its output. -/
theorem get_available_countries_complete (df : Dataset) (r : Record)
    (h : r ∈ df) : r.location ∈ get_available_countries df := by
  unfold get_available_countries
  rw [List.mem_insertionSort, List.mem_dedup]
  exact List.mem_map_of_mem _ h

/-- Claim C10 witness: location "X" of a concrete row appears in the
country list of the concrete dataset. -/
theorem get_available_countries_complete_witness :
    "X" ∈ get_available_countries exFilterD := by
  have h := get_available_countries_complete exFilterD rowX (by simp [exFilterD])
  simpa [rowX, mkRow] using h

/-- A row dated later than the final row, placed first: `iloc[-1]` then
picks a row without the maximal date. -/
def rowLate : Record := mkRow "T" 2 none none none

/-- The final row of the unsorted slice, carrying the earlier date. -/
def rowEarly : Record := mkRow "T" 1 none none none

/-- A country slice NOT sorted ascending by date. -/
def exUnsorted : Dataset := [rowLate, rowEarly]

/-- First row of a date-sorted slice. -/
def rowS1 : Record := mkRow "S" 1 none none none

/-- Second (and latest) row of a date-sorted slice. -/
def rowS2 : Record := mkRow "S" 2 none none none

/-- A country slice sorted ascending by date. -/
def exSorted : Dataset := [rowS1, rowS2]

/-- On a date-sorted list the positionally last row is reached by
peeling leading rows. -/
theorem spec_latest_eq_getLast_aux (r : Record) (rs : List Record)
    (hp : (r :: rs).Pairwise (fun a b => a.date ≤ b.date)) :
    (r :: rs).getLast? =
      some (rs.foldl (fun acc x => if acc.date ≤ x.date then x else acc) r) := by
  induction rs generalizing r with
  | nil => rfl
  | cons x rs ih =>
    have hrx : r.date ≤ x.date :=
      (List.pairwise_cons.mp hp).1 x (List.mem_cons_self x rs)
    rw [List.getLast?_cons_cons, ih x hp.of_cons]
    simp [hrx]

/-- Claim C1 counterexample: on the concrete slice whose rows are not in
ascending date order, the selection `iloc[-1]` returns the final row,
whose date (1) is strictly below the date (2) of another row of the
slice — so it is not the Record with the maximal date, and it differs
from the spec's latest-by-date selection. -/
theorem latest_data_not_max_date :
    latest_data exUnsorted = some rowEarly ∧
    rowLate ∈ exUnsorted ∧ rowEarly.date < rowLate.date ∧
    latest_data exUnsorted ≠ spec_latest_by_date exUnsorted ∧
    display_country_stats exUnsorted = Except.ok (snapshot_of rowEarly) := by
  refine ⟨by decide, by decide, by decide, by decide, rfl⟩

/-- Claim C1 (amended): on a country slice whose rows are in ascending
date order — as the spec presumes of the source dataset — the row
selected by `iloc[-1]` has the maximal date of the slice, coincides with
the spec's latest-by-date (last on ties) selection, and is the row the
snapshot is derived from. -/
theorem latest_data_max_date_of_sorted (slice : Dataset)
    (hp : slice.Pairwise (fun a b => a.date ≤ b.date))
    (sel : Record) (hsel : latest_data slice = some sel) :
    (∀ r ∈ slice, r.date ≤ sel.date) ∧
    latest_data slice = spec_latest_by_date slice ∧
    display_country_stats slice = Except.ok (snapshot_of sel) := by
  refine ⟨?_, ?_, ?_⟩
  · intro r hr
    induction slice generalizing r with
    | nil => cases hr
    | cons a l ih =>
      cases l with
      | nil =>
        have ha : a = sel := by simpa [latest_data] using hsel
        have hra : r = a := by simpa using hr
        simp [hra, ha]
      | cons b l' =>
        rw [latest_data, List.getLast?_cons_cons] at hsel
        rcases List.mem_cons.mp hr with rfl | hr'
        · have hselmem : sel ∈ b :: l' := List.mem_of_getLast?_eq_some hsel
          exact (List.pairwise_cons.mp hp).1 sel hselmem
        · exact ih hp.of_cons hsel r hr'
  · cases slice with
    | nil => simp [latest_data] at hsel
    | cons a l =>
      rw [latest_data, spec_latest_eq_getLast_aux a l hp]
      rfl
  · simp [display_country_stats, hsel]

/-- Claim C1 witness: on the concrete date-sorted slice, the positional
selection agrees with the spec's latest-by-date selection. -/
theorem latest_data_max_date_of_sorted_witness :
    latest_data exSorted = spec_latest_by_date exSorted ∧
    rowS1.date ≤ rowS2.date :=
  ⟨(latest_data_max_date_of_sorted exSorted (by decide) rowS2 (by decide)).2.1,
   (latest_data_max_date_of_sorted exSorted (by decide) rowS2 (by decide)).1
     rowS1 (by simp [exSorted])⟩

/-- Claim C6: summarisation fails exactly on the empty slice, the only
failure it signals is not-found (as the error type has no other value),
and the slice is unchanged by the call. -/
theorem display_country_stats_notfound_iff (slice : Dataset) :
    ((∃ e, display_country_stats slice = Except.error e) ↔ slice = []) ∧
    (display_country_stats [] = Except.error SummarizeError.notFound) ∧
    (∀ e, display_country_stats slice = Except.error e →
      e = SummarizeError.notFound) ∧
    (display_country_stats_st slice).2 = slice := by
  refine ⟨⟨?_, ?_⟩, rfl, fun e _ => by cases e; rfl, rfl⟩
  · rintro ⟨e, he⟩
    cases hlast : slice.getLast? with
    | none => exact List.getLast?_eq_none_iff.mp hlast
    | some r =>
      rw [display_country_stats, latest_data, hlast] at he
      cases he
  · rintro rfl
    exact ⟨SummarizeError.notFound, rfl⟩

/-- Claim C6 witness: on the empty slice the summarisation signals
not-found. -/
theorem display_country_stats_notfound_iff_witness :
    display_country_stats ([] : Dataset) = Except.error SummarizeError.notFound :=
  (display_country_stats_notfound_iff []).2.1

/-- Dataset of the country-listing scenario: locations
["Brazil", "Chad", "Brazil", "Aland"]. -/
def exListD : Dataset :=
  [mkRow "Brazil" 0 none none none, mkRow "Chad" 0 none none none,
   mkRow "Brazil" 0 none none none, mkRow "Aland" 0 none none none]

/-- Claim C5: `get_available_countries` returns a lexicographically
ascending, duplicate-free list of locations of the input dataset; on the
scenario dataset with locations ["Brazil", "Chad", "Brazil", "Aland"] it
returns exactly ["Aland", "Brazil", "Chad"]. -/
theorem get_available_countries_spec :
    (∀ df : Dataset, (get_available_countries df).Sorted (· ≤ ·) ∧
      (get_available_countries df).Nodup ∧
      (∀ s ∈ get_available_countries df, ∃ r ∈ df, r.location = s)) ∧
    get_available_countries exListD = ["Aland", "Brazil", "Chad"] := by
  constructor
  · intro df
    refine ⟨List.sorted_insertionSort _ _, ?_, fun s hs => ?_⟩
    · exact ((List.perm_insertionSort _ _).nodup_iff).mpr
        (List.nodup_dedup _)
    · unfold get_available_countries at hs
      rw [List.mem_insertionSort, List.mem_dedup, List.mem_map] at hs
      rcases hs with ⟨r, hr, rfl⟩
      exact ⟨r, hr, rfl⟩
  · have hdedup : (exListD.map Record.location).dedup =
        ["Chad", "Brazil", "Aland"] := by decide
    have h1 : ¬ ("Brazil" ≤ "Aland") := by
      rw [String.le_iff_toList_le]; decide
    unfold get_available_countries
    rw [hdedup]
    simp [List.insertionSort, List.orderedInsert, h1]
    decide

/-- Claim C5 witness: on the scenario dataset, "Aland" is listed and is
the location of one of its rows. -/
theorem get_available_countries_spec_witness :
    ∃ r ∈ exListD, r.location = "Aland" := by
  refine (get_available_countries_spec.1 exListD).2.2 "Aland" ?_
  rw [get_available_countries_spec.2]
  simp

/-- First Testland row of the fatality-rate scenario. -/
def rowT1 : Record := mkRow "Testland" 1 (some 100) (some 2) none

/-- Second (latest) Testland row of the fatality-rate scenario. -/
def rowT2 : Record := mkRow "Testland" 2 (some 150) (some 3) none

/-- The two-row Testland slice of the fatality-rate scenario. -/
def exTestland : Dataset := [rowT1, rowT2]

/-- Claim C7: the snapshot's case fatality rate is present iff the
selected row's `total_cases` is strictly positive, in which case it is
`total_deaths / total_cases * 100` at two-decimal display precision;
when `total_cases` is 0 (or negative) the field is omitted, not zero. -/
theorem case_fatality_rate_spec (slice : Dataset) (sel : Record)
    (tc td : ℚ) (hsel : latest_data slice = some sel)
    (htc : sel.total_cases = some tc) (htd : sel.total_deaths = some td) :
    ∃ snap, display_country_stats slice = Except.ok snap ∧
      snap.case_fatality_rate =
        (if 0 < tc then some (roundTo2 (td / tc * 100)) else none) := by
  refine ⟨snapshot_of sel, by simp [display_country_stats, hsel], ?_⟩
  simp [snapshot_of, htc, htd]

/-- Claim C7 witness: on the Testland slice the latest row has 150 cases
and 3 deaths, and the reported fatality rate is exactly 2. -/
theorem case_fatality_rate_spec_witness :
    ∃ snap, display_country_stats exTestland = Except.ok snap ∧
      snap.case_fatality_rate = some 2 := by
  obtain ⟨snap, h1, h2⟩ :=
    case_fatality_rate_spec exTestland rowT2 150 3 rfl rfl rfl
  refine ⟨snap, h1, ?_⟩
  rw [h2, if_pos (by norm_num)]
  norm_num [roundTo2]

/-- A row with fractional metric values, exercising truncation. -/
def rowFrac : Record := mkRow "Fracland" 5 (some (107/10)) (some (5/2)) (some (1/2))

/-- Singleton slice of the fractional row. -/
def exFrac : Dataset := [rowFrac]

/-- Claim C8: the snapshot always carries `total_cases` and
`total_deaths` as integers truncated toward zero from the selected
row's values, and carries `total_vaccinations` (likewise truncated) iff
the selected row's value is strictly greater than 0. -/
theorem totals_truncated_vax_guarded (slice : Dataset) (sel : Record)
    (tc td tv : ℚ) (hsel : latest_data slice = some sel)
    (htc : sel.total_cases = some tc) (htd : sel.total_deaths = some td)
    (htv : sel.total_vaccinations = some tv) :
    ∃ snap, display_country_stats slice = Except.ok snap ∧
      snap.total_cases = pyTrunc tc ∧ snap.total_deaths = pyTrunc td ∧
      snap.total_vaccinations =
        (if 0 < tv then some (pyTrunc tv) else none) := by
  refine ⟨snapshot_of sel, by simp [display_country_stats, hsel], ?_, ?_, ?_⟩ <;>
    simp [snapshot_of, htc, htd, htv]

/-- Claim C8 witness: on the fractional row (10.7 cases, 2.5 deaths, 0.5
vaccinations) the snapshot reports 10 cases, 2 deaths, and — since
0.5 > 0 — vaccinations truncated to 0. -/
theorem totals_truncated_vax_guarded_witness :
    ∃ snap, display_country_stats exFrac = Except.ok snap ∧
      snap.total_cases = 10 ∧ snap.total_deaths = 2 ∧
      snap.total_vaccinations = some 0 := by
  obtain ⟨snap, h1, h2, h3, h4⟩ :=
    totals_truncated_vax_guarded exFrac rowFrac (107/10) (5/2) (1/2)
      rfl rfl rfl rfl
  refine ⟨snap, h1, ?_, ?_, ?_⟩
  · rw [h2]; norm_num [pyTrunc]
  · rw [h3]; norm_num [pyTrunc]
  · rw [h4, if_pos (by norm_num)]
    norm_num [pyTrunc]

end Covid
